import Mathlib

/-!
Verification of the LicenseChain Go SDK against its specification.

The development shallowly embeds the request-execution pipeline of
`src/client/client.go` (the retry loop `do`, the classifier
`isRetryableError`, the constructor `NewClient`) together with the webhook
signature pair `CreateWebhookSignature` / `VerifyWebhookSignature` of
`src/unnamed/part_000` (including an executable HMAC-SHA-256 over byte
lists, so that the signature functions are the real ones and not stubs).

Conventions of the embedding:
* HTTP status codes and loop counters are `Nat`; Go `time.Duration` values
  (int64 nanoseconds) are `Int` where signedness matters (`NewClient`
  configuration fields) and `Nat` inside the retry loop, where all the
  delays in the claims are non-negative and far below 2^63 so that Go's
  int64 arithmetic and `Nat` arithmetic agree.
* `json.Unmarshal` and the network are Go-library / external effects, so
  they enter the embedding as parameters of the `do` environment: the
  network is a function from the attempt index to that attempt's outcome,
  and the two unmarshal call sites are oracle functions from the body text
  to their outcome.
* Go `error` values returned raw (transport errors, body-read errors,
  result-unmarshal errors) are constructors carrying the message.
-/

namespace LicenseChain

/-- Outcome of one send attempt as seen by `client.do`
(`src/client/client.go:260-272`): either a transport-level failure from
`c.httpClient.Do` (no HTTP status obtained), or an HTTP response carrying a
status code, an optional `io.ReadAll` failure, and the body text. -/
inductive Outcome where
  | transport (msg : String)
  | http (status : Nat) (readFail : Option String) (body : String)
deriving DecidableEq

/-- The error envelope `ErrorResponse` (`src/client/client.go:163-169`);
`Details` (a Go `map[string]interface\x7b\x7d`) is modelled as an
association list of rendered values. -/
structure ErrorResponse where
  error : String
  message : String
  code : String
  details : List (String × String)
  timestamp : String
deriving DecidableEq

/-- The error values `client.do` can return, by provenance:
`transportErr`, `readErr` and `unmarshalErr` are raw Go `error` values
returned unchanged (`src/client/client.go:267,279,304`); `httpError` is the
plain error built by `fmt.Errorf("HTTP %d: %s", status, body)` (line 285);
`licenseChain` is the `LicenseChainError` struct literal of lines 287-292,
whose declaration at lines 172-177 has exactly the fields `Message`,
`StatusCode`, `Code`, `Details` — note: no kind/type tag field. -/
inductive DoError where
  | transportErr (msg : String)
  | readErr (msg : String)
  | unmarshalErr (msg : String)
  | httpError (status : Nat) (body : String)
  | licenseChain (message : String) (statusCode : Nat) (code : String)
      (details : List (String × String))
deriving DecidableEq

/-- The taxonomy tag carried inside a `do`-returned error value. The only
error type of the repository with a tag field is `errors.go`'s
`LicenseChainError` (field `Type`, `src/client/errors.go:6-10`), and none
of the shapes `do` actually returns is of that type: `client.go`'s
`LicenseChainError` (lines 172-177) has fields
`Message`/`StatusCode`/`Code`/`Details` only, and the remaining shapes are
plain Go errors with nothing but a message.  Hence every constructor maps
to `none`. -/
def DoError.typeTag : DoError → Option String
  | .transportErr _ => none
  | .readErr _ => none
  | .unmarshalErr _ => none
  | .httpError _ _ => none
  | .licenseChain _ _ _ _ => none

/-- The raw HTTP status carried by a `do`-returned error: the `StatusCode`
field for the struct error, the `%d` argument formatted into the message
for the plain `fmt.Errorf` error; raw Go errors carry none. -/
def DoError.carriedStatus : DoError → Option Nat
  | .transportErr _ => none
  | .readErr _ => none
  | .unmarshalErr _ => none
  | .httpError s _ => some s
  | .licenseChain _ s _ _ => some s

/-- The raw body text carried by a `do`-returned error (the `%s` argument
of the `fmt.Errorf` at `src/client/client.go:285`). -/
def DoError.carriedBody : DoError → Option String
  | .httpError _ b => some b
  | _ => none

/-- `isRetryableError` (`src/client/client.go:314-316`):
`statusCode == 429 || statusCode >= 500`. -/
def isRetryableError (statusCode : Nat) : Bool :=
  statusCode == 429 || decide (500 ≤ statusCode)

/-- Modelled from the spec: `resp.IsSuccess()` (`src/client/client.go:282`)
is defined neither in this repository nor in Go's `net/http`; spec section
4.3 gives the success criterion as status in `[200,300)`. -/
def isSuccess (status : Nat) : Bool :=
  decide (200 ≤ status) && decide (status < 300)

/-- The error value `client.do` stores in `lastErr` for a non-2xx response
(`src/client/client.go:283-293`): try to decode the body as
`ErrorResponse`; on success build the `LicenseChainError` struct from the
envelope and the status, otherwise the plain formatted HTTP error carrying
the raw status and body. -/
def mkHttpErr (decodeErr : String → Option ErrorResponse) (status : Nat)
    (body : String) : DoError :=
  match decodeErr body with
  | none => .httpError status body
  | some env => .licenseChain env.error status env.code env.details

/-- Environment of one `client.do` call: the retry configuration copied
from the client, the network behaviour (attempt index to outcome), the two
`json.Unmarshal` oracles (error-envelope decode per body; result decode
failure per body), and whether a result destination was passed.
`json.Unmarshal` is Go library code external to this repository, so it
enters the embedding as a parameter. -/
structure DoEnv where
  retries : Nat
  retryDelay : Nat
  responses : Nat → Outcome
  decodeErr : String → Option ErrorResponse
  resultRequested : Bool
  decodeResult : String → Option String

/-- Observable trace of one `client.do` call: how many send attempts were
made, which delays were slept between consecutive attempts (in order), and
the final outcome (`.ok ()` models a `nil` returned error). -/
structure DoTrace where
  attempts : Nat
  sleeps : List Nat
  result : Except DoError Unit

/-- One sleep-then-retry step (`src/client/client.go:264,276,296`): records
the slept delay `retryDelay * time.Duration(1<<i) = retryDelay * 2^i` and
counts the attempt that preceded the sleep. -/
def step (retryDelay i : Nat) (t : DoTrace) : DoTrace :=
  { attempts := t.attempts + 1
    sleeps := retryDelay * 2 ^ i :: t.sleeps
    result := t.result }

/-- The loop of `client.do` (`src/client/client.go:256-312`), one branch
per source branch.  `fuel` is the number of loop iterations still allowed
(`retries + 1 - i` at loop counter `i`), and `last` is the current
`lastErr` (`.ok ()` models `nil`), returned verbatim by the `return
lastErr` after the loop should the fuel run out (unreachable from `doRun`,
where every final-iteration branch returns directly). -/
def doAux (env : DoEnv) : Nat → Nat → Except DoError Unit → DoTrace
  | 0, _, last => { attempts := 0, sleeps := [], result := last }
  | fuel+1, i, _ =>
    match env.responses i with
    | .transport e =>
      if i < env.retries then
        step env.retryDelay i (doAux env fuel (i+1) (.error (.transportErr e)))
      else { attempts := 1, sleeps := [], result := .error (.transportErr e) }
    | .http status readFail body =>
      match readFail with
      | some e =>
        if i < env.retries ∧ isRetryableError status = true then
          step env.retryDelay i (doAux env fuel (i+1) (.error (.readErr e)))
        else { attempts := 1, sleeps := [], result := .error (.readErr e) }
      | none =>
        if isSuccess status = true then
          if env.resultRequested = true ∧ 0 < body.length then
            match env.decodeResult body with
            | some e =>
              { attempts := 1, sleeps := [], result := .error (.unmarshalErr e) }
            | none => { attempts := 1, sleeps := [], result := .ok () }
          else { attempts := 1, sleeps := [], result := .ok () }
        else
          if i < env.retries ∧ isRetryableError status = true then
            step env.retryDelay i
              (doAux env fuel (i+1) (.error (mkHttpErr env.decodeErr status body)))
          else
            { attempts := 1, sleeps := []
              result := .error (mkHttpErr env.decodeErr status body) }

/-- `client.do` (`src/client/client.go:256-312`): run the loop from
`i = 0` with fuel for the `retries + 1` iterations `i = 0, ..., retries`
and `lastErr = nil`. -/
def doRun (env : DoEnv) : DoTrace := doAux env (env.retries + 1) 0 (.ok ())

/-- `strings.TrimSuffix(s, suf)`: drop one occurrence of the suffix when
present (modelled on the character list of the string; the only use site
passes the one-byte suffix "/"). -/
def trimSuffix (s suf : String) : String :=
  if suf.data.isSuffixOf s.data then
    { data := s.data.take (s.data.length - suf.data.length) }
  else s

/-- `Config` (`src/client/client.go:26-32`).  `Timeout` and `RetryDelay`
are Go `time.Duration` (int64 nanoseconds) and `Retries` a Go `int`, all
modelled as `Int` so that negative caller-supplied values are
representable. -/
structure Config where
  apiKey : String
  baseURL : String
  timeout : Int
  retries : Int
  retryDelay : Int
deriving DecidableEq

/-- The fields of `LicenseChainClient` set by `NewClient`
(`src/client/client.go:16-23,56-65`); the embedded `http.Client` is
represented by the `timeout` it is constructed with. -/
structure ClientState where
  baseURL : String
  apiKey : String
  timeout : Int
  retries : Int
  retryDelay : Int
deriving DecidableEq

/-- One Go `time.Second` in nanoseconds. -/
def second : Int := 1000000000

/-- `NewClient` (`src/client/client.go:35-68`): reject an empty API key,
substitute the documented default for every field left at its zero value,
and freeze the result into the client. -/
def NewClient (config : Config) : Except String ClientState :=
  if config.apiKey = "" then .error "API key is required"
  else
    let baseURL := if config.baseURL = "" then "https://api.licensechain.app"
      else config.baseURL
    let timeout := if config.timeout = 0 then 30 * second else config.timeout
    let retries := if config.retries = 0 then 3 else config.retries
    let retryDelay := if config.retryDelay = 0 then 1 * second
      else config.retryDelay
    .ok { baseURL := trimSuffix baseURL "/"
          apiKey := config.apiKey
          timeout := timeout
          retries := retries
          retryDelay := retryDelay }

/-- The error taxonomy named by the spec (section 7). -/
inductive ErrorKind where
  | validation
  | authentication
  | notFound
  | rateLimit
  | server
  | network
  | unknown
deriving DecidableEq

/-- Modelled from the spec: the status-to-kind mapping of spec section 4.3
(400 validation, 401/403 authentication, 404 not_found, 429 rate_limit,
500/502/503/504 server, other non-2xx unknown).  The repository's source
implements this mapping nowhere; the definition exists only to compare the
spec against the source (claims C2, C3, C6). -/
def specStatusKind (status : Nat) : ErrorKind :=
  if status = 400 then .validation
  else if status = 401 ∨ status = 403 then .authentication
  else if status = 404 then .notFound
  else if status = 429 then .rateLimit
  else if status = 500 ∨ status = 502 ∨ status = 503 ∨ status = 504 then .server
  else .unknown

/-- Modelled from the spec: the section 7 taxonomy applied to the shapes of
error the executor actually returns — a transport or body-read failure is
`network`, an undecodable error body is `unknown` (spec section 4.3), an
envelope-decoded HTTP error classifies by its status, and a local
result-decode failure is outside the non-2xx mapping, hence `unknown`.
The executor itself attaches no kinds (see claim C3). -/
def specErrKind : DoError → ErrorKind
  | .transportErr _ => .network
  | .readErr _ => .network
  | .unmarshalErr _ => .unknown
  | .httpError _ _ => .unknown
  | .licenseChain _ s _ _ => specStatusKind s

/-- The backoff delays `d * 2^i, d * 2^(i+1), ...` (`m` of them), the
shape `client.do`'s sleeps take from loop counter `i` on. -/
def backoffs (d i : Nat) : Nat → List Nat
  | 0 => []
  | m+1 => d * 2 ^ i :: backoffs d (i+1) m

/-!
Executable SHA-256 and HMAC-SHA-256 over byte lists (`List Nat`, each
element < 256), embedding Go's `crypto/sha256` / `crypto/hmac` as used by
`CreateWebhookSignature` (`src/unnamed/part_000:219-229`).  32-bit words
are `Nat` reduced with an explicit `% 2^32`.
-/

/-- 2^32, the word modulus of SHA-256. -/
def pow32 : Nat := 4294967296

/-- Right rotation of a 32-bit word. -/
def rotr32 (x n : Nat) : Nat := ((x >>> n) ||| (x <<< (32 - n))) % pow32

/-- SHA-256 big sigma 0. -/
def bigS0 (x : Nat) : Nat := rotr32 x 2 ^^^ rotr32 x 13 ^^^ rotr32 x 22

/-- SHA-256 big sigma 1. -/
def bigS1 (x : Nat) : Nat := rotr32 x 6 ^^^ rotr32 x 11 ^^^ rotr32 x 25

/-- SHA-256 small sigma 0. -/
def smallS0 (x : Nat) : Nat := rotr32 x 7 ^^^ rotr32 x 18 ^^^ (x >>> 3)

/-- SHA-256 small sigma 1. -/
def smallS1 (x : Nat) : Nat := rotr32 x 17 ^^^ rotr32 x 19 ^^^ (x >>> 10)

/-- SHA-256 choice function; 4294967295 is the 32-bit all-ones mask. -/
def chf (x y z : Nat) : Nat := (x &&& y) ^^^ ((x ^^^ 4294967295) &&& z)

/-- SHA-256 majority function. -/
def majf (x y z : Nat) : Nat := (x &&& y) ^^^ (x &&& z) ^^^ (y &&& z)

/-- The 64 SHA-256 round constants. -/
def shaK : List Nat :=
  [1116352408, 1899447441, 3049323471, 3921009573, 961987163, 1508970993,
   2453635748, 2870763221, 3624381080, 310598401, 607225278, 1426881987,
   1925078388, 2162078206, 2614888103, 3248222580, 3835390401, 4022224774,
   264347078, 604807628, 770255983, 1249150122, 1555081692, 1996064986,
   2554220882, 2821834349, 2952996808, 3210313671, 3336571891, 3584528711,
   113926993, 338241895, 666307205, 773529912, 1294757372, 1396182291,
   1695183700, 1986661051, 2177026350, 2456956037, 2730485921, 2820302411,
   3259730800, 3345764771, 3516065817, 3600352804, 4094571909, 275423344,
   430227734, 506948616, 659060556, 883997877, 958139571, 1322822218,
   1537002063, 1747873779, 1955562222, 2024104815, 2227730452, 2361852424,
   2428436474, 2756734187, 3204031479, 3329325298]

/-- The initial SHA-256 hash state. -/
def shaH0 : List Nat :=
  [1779033703, 3144134277, 1013904242, 2773480762, 1359893119, 2600822924,
   528734635, 1541459225]

/-- Big-endian byte decomposition of a number into `k` bytes. -/
def toBytesBE : Nat → Nat → List Nat
  | 0, _ => []
  | k+1, n => toBytesBE k (n >>> 8) ++ [n &&& 255]

/-- SHA-256 padding: a 0x80 byte, zeros up to 56 mod 64, and the bit
length as an 8-byte big-endian number. -/
def sha256Pad (msg : List Nat) : List Nat :=
  msg ++ [128] ++ List.replicate ((119 - msg.length % 64) % 64) 0 ++
    toBytesBE 8 (msg.length * 8)

/-- Split a list into `b` chunks of 64 bytes. -/
def chunksGo : Nat → List Nat → List (List Nat)
  | 0, _ => []
  | b+1, l => l.take 64 :: chunksGo b (l.drop 64)

/-- Split a padded message (whose length is a multiple of 64) into its
64-byte blocks. -/
def chunks64 (l : List Nat) : List (List Nat) := chunksGo (l.length / 64) l

/-- The `j`-th big-endian 32-bit word of a 64-byte block. -/
def word32At (block : List Nat) (j : Nat) : Nat :=
  (block.getD (4*j) 0) <<< 24 ||| (block.getD (4*j+1) 0) <<< 16 |||
    (block.getD (4*j+2) 0) <<< 8 ||| block.getD (4*j+3) 0

/-- The first 16 words of the message schedule. -/
def initialWords (block : List Nat) : List Nat :=
  (List.range 16).map (word32At block)

/-- Extend the message schedule by `n` further words. -/
def extendWords : Nat → List Nat → List Nat
  | 0, w => w
  | n+1, w =>
    let t := w.length
    extendWords n (w ++
      [(smallS1 (w.getD (t-2) 0) + w.getD (t-7) 0 + smallS0 (w.getD (t-15) 0)
        + w.getD (t-16) 0) % pow32])

/-- The full 64-word message schedule of a block. -/
def scheduleOf (block : List Nat) : List Nat :=
  extendWords 48 (initialWords block)

/-- The eight SHA-256 working variables. -/
structure Sha8 where
  a : Nat
  b : Nat
  c : Nat
  d : Nat
  e : Nat
  f : Nat
  g : Nat
  h : Nat

/-- One SHA-256 compression round; the pair carries the schedule word and
the round constant. -/
def roundStep (s : Sha8) (kw : Nat × Nat) : Sha8 :=
  let t1 := (s.h + bigS1 s.e + chf s.e s.f s.g + kw.2 + kw.1) % pow32
  let t2 := (bigS0 s.a + majf s.a s.b s.c) % pow32
  { a := (t1 + t2) % pow32, b := s.a, c := s.b, d := s.c
    e := (s.d + t1) % pow32, f := s.e, g := s.f, h := s.g }

/-- Compress one 64-byte block into the running hash state. -/
def compressBlock (hs : List Nat) (block : List Nat) : List Nat :=
  let w := scheduleOf block
  let s0 : Sha8 :=
    ⟨hs.getD 0 0, hs.getD 1 0, hs.getD 2 0, hs.getD 3 0,
     hs.getD 4 0, hs.getD 5 0, hs.getD 6 0, hs.getD 7 0⟩
  let s := (w.zip shaK).foldl roundStep s0
  [(hs.getD 0 0 + s.a) % pow32, (hs.getD 1 0 + s.b) % pow32,
   (hs.getD 2 0 + s.c) % pow32, (hs.getD 3 0 + s.d) % pow32,
   (hs.getD 4 0 + s.e) % pow32, (hs.getD 5 0 + s.f) % pow32,
   (hs.getD 6 0 + s.g) % pow32, (hs.getD 7 0 + s.h) % pow32]

/-- SHA-256 of a byte list, as a list of 32 bytes. -/
def sha256Bytes (msg : List Nat) : List Nat :=
  (((chunks64 (sha256Pad msg)).foldl compressBlock shaH0).map
    (toBytesBE 4)).flatten

/-- HMAC-SHA-256 (Go `crypto/hmac` with `crypto/sha256`, block size 64):
hash an over-long key, zero-pad, and apply the nested ipad/opad hashes. -/
def hmacSha256 (key msg : List Nat) : List Nat :=
  let k0 := if 64 < key.length then sha256Bytes key else key
  let kp := k0 ++ List.replicate (64 - k0.length) 0
  sha256Bytes ((kp.map (fun b => b ^^^ 92)) ++
    sha256Bytes ((kp.map (fun b => b ^^^ 54)) ++ msg))

/-- Lower-case hexadecimal digit. -/
def hexDigit (n : Nat) : Char :=
  if n < 10 then Char.ofNat (48 + n) else Char.ofNat (87 + n)

/-- `hex.EncodeToString`: lower-case hexadecimal rendering of a byte
list. -/
def hexEncode (bytes : List Nat) : String :=
  { data := (bytes.map (fun b => [hexDigit (b / 16), hexDigit (b % 16)])).flatten }

/-- UTF-8 encoding of one code point, matching Go's byte view of a
string. -/
def utf8EncodeChar (c : Nat) : List Nat :=
  if c < 128 then [c]
  else if c < 2048 then [192 ||| (c >>> 6), 128 ||| (c &&& 63)]
  else if c < 65536 then
    [224 ||| (c >>> 12), 128 ||| ((c >>> 6) &&& 63), 128 ||| (c &&& 63)]
  else
    [240 ||| (c >>> 18), 128 ||| ((c >>> 12) &&& 63),
     128 ||| ((c >>> 6) &&& 63), 128 ||| (c &&& 63)]

/-- The byte sequence of a Go string (`[]byte(s)`): UTF-8. -/
def utf8Bytes (s : String) : List Nat :=
  (s.data.map (fun c => utf8EncodeChar c.toNat)).flatten

/-- `CreateWebhookSignature` (`src/unnamed/part_000:219-223`): hex-encoded
HMAC-SHA-256 of the payload keyed by the secret. -/
def CreateWebhookSignature (payload secret : String) : String :=
  hexEncode (hmacSha256 (utf8Bytes secret) (utf8Bytes payload))

/-- `hmac.Equal` (Go `crypto/subtle.ConstantTimeCompare`): true exactly
when the two byte slices have the same length and contents; the
constant-time evaluation strategy has no observable value-level effect. -/
def hmacEqual (a b : List Nat) : Bool := a == b

/-- `VerifyWebhookSignature` (`src/unnamed/part_000:225-229`): recompute
the signature and compare byte-wise. -/
def VerifyWebhookSignature (payload signature secret : String) : Bool :=
  hmacEqual (utf8Bytes signature)
    (utf8Bytes (CreateWebhookSignature payload secret))

/-!
Helper lemmas about the retry loop, shared by the claim theorems.
-/

/-- The loop makes at most `fuel` send attempts. -/
theorem doAux_attempts_le (env : DoEnv) :
    ∀ fuel i last, (doAux env fuel i last).attempts ≤ fuel := by
  intro fuel
  induction fuel with
  | zero => intro i last; simp [doAux]
  | succ f ih =>
    intro i last
    cases hr : env.responses i with
    | transport e =>
      simp only [doAux, hr]
      split
      · simpa [step] using Nat.succ_le_succ (ih (i+1) (.error (.transportErr e)))
      · exact Nat.succ_le_succ (Nat.zero_le f)
    | http status readFail body =>
      cases readFail with
      | some e =>
        simp only [doAux, hr]
        split
        · simpa [step] using Nat.succ_le_succ (ih (i+1) (.error (.readErr e)))
        · exact Nat.succ_le_succ (Nat.zero_le f)
      | none =>
        simp only [doAux, hr]
        split
        · split
          · split <;> exact Nat.succ_le_succ (Nat.zero_le f)
          · exact Nat.succ_le_succ (Nat.zero_le f)
        · split
          · simpa [step] using Nat.succ_le_succ
              (ih (i+1) (.error (mkHttpErr env.decodeErr status body)))
          · exact Nat.succ_le_succ (Nat.zero_le f)

/-- Whatever the run does, its sleep list is a chain of consecutive
backoffs starting at the current loop counter. -/
theorem doAux_sleeps_shape (env : DoEnv) :
    ∀ fuel i last, ∃ m,
      (doAux env fuel i last).sleeps = backoffs env.retryDelay i m := by
  intro fuel
  induction fuel with
  | zero => intro i last; exact ⟨0, rfl⟩
  | succ f ih =>
    intro i last
    cases hr : env.responses i with
    | transport e =>
      simp only [doAux, hr]
      split
      · obtain ⟨m, hm⟩ := ih (i+1) (.error (.transportErr e))
        exact ⟨m + 1, by simp [step, backoffs, hm]⟩
      · exact ⟨0, rfl⟩
    | http status readFail body =>
      cases readFail with
      | some e =>
        simp only [doAux, hr]
        split
        · obtain ⟨m, hm⟩ := ih (i+1) (.error (.readErr e))
          exact ⟨m + 1, by simp [step, backoffs, hm]⟩
        · exact ⟨0, rfl⟩
      | none =>
        simp only [doAux, hr]
        split
        · split
          · split <;> exact ⟨0, rfl⟩
          · exact ⟨0, rfl⟩
        · split
          · obtain ⟨m, hm⟩ :=
              ih (i+1) (.error (mkHttpErr env.decodeErr status body))
            exact ⟨m + 1, by simp [step, backoffs, hm]⟩
          · exact ⟨0, rfl⟩

/-- Every element of a backoff chain is `d * 2 ^ (i + position)`. -/
theorem backoffs_get (d : Nat) :
    ∀ m i j v, (backoffs d i m).get? j = some v → v = d * 2 ^ (i + j) := by
  intro m
  induction m with
  | zero => intro i j v h; simp [backoffs] at h
  | succ m ih =>
    intro i j v h
    cases j with
    | zero =>
      simp [backoffs] at h
      simp [h.symm]
    | succ j =>
      simp only [backoffs, List.get?_cons_succ] at h
      have hx : i + 1 + j = i + (j + 1) := by omega
      rw [← hx]
      exact ih (i+1) j v h

/-- A backoff chain of `m` delays has the expected delay at every position
below `m`. -/
theorem backoffs_get_pos (d : Nat) :
    ∀ m i j, j < m → (backoffs d i m).get? j = some (d * 2 ^ (i + j)) := by
  intro m
  induction m with
  | zero => intro i j h; omega
  | succ m ih =>
    intro i j h
    cases j with
    | zero => simp [backoffs]
    | succ j =>
      simp only [backoffs, List.get?_cons_succ]
      have hx : i + (j + 1) = i + 1 + j := by omega
      rw [hx]
      exact ih (i+1) j (by omega)

/-- When every attempt fails at the transport level, the loop uses all its
fuel, sleeps the full backoff chain, and ends on the last transport
error. -/
theorem doAux_allTransport (env : DoEnv) (e : Nat → String)
    (hr : ∀ n, env.responses n = .transport (e n)) :
    ∀ fuel i last, fuel = env.retries + 1 - i → i ≤ env.retries →
      doAux env fuel i last =
        { attempts := fuel
          sleeps := backoffs env.retryDelay i (env.retries - i)
          result := .error (.transportErr (e env.retries)) } := by
  intro fuel
  induction fuel with
  | zero => intro i last hf hi; omega
  | succ f ih =>
    intro i last hf hi
    simp only [doAux, hr i]
    by_cases hlt : i < env.retries
    · rw [if_pos hlt, ih (i+1) (.error (.transportErr (e i))) (by omega) (by omega)]
      have hsub : env.retries - i = (env.retries - (i+1)) + 1 := by omega
      simp [step, hsub, backoffs]
    · have hieq : i = env.retries := by omega
      have hf0 : f = 0 := by omega
      rw [if_neg hlt]
      subst hieq
      simp [hf0, backoffs]

/-- When every attempt yields the same cleanly-read non-2xx response, the
run's final result is the mapped last error for that status and body. -/
theorem doAux_constHttp (env : DoEnv) (s : Nat) (body : String)
    (hresp : ∀ n, env.responses n = .http s none body)
    (hs : isSuccess s = false) :
    ∀ fuel i last, fuel = env.retries + 1 - i → i ≤ env.retries →
      (doAux env fuel i last).result =
        .error (mkHttpErr env.decodeErr s body) := by
  intro fuel
  induction fuel with
  | zero => intro i last hf hi; omega
  | succ f ih =>
    intro i last hf hi
    simp only [doAux, hresp i]
    rw [if_neg (by simp [hs])]
    split
    · next hcond =>
      have hlt := hcond.1
      simp [step, ih (i+1) (.error (mkHttpErr env.decodeErr s body))
        (by omega) (by omega)]
    · rfl

/-- The client value `NewClient` constructs for a non-empty API key,
written out with its per-field zero-value defaulting
(`src/client/client.go:40-65`). -/
def defaultedClient (cfg : Config) : ClientState :=
  { baseURL := trimSuffix
      (if cfg.baseURL = "" then "https://api.licensechain.app" else cfg.baseURL) "/"
    apiKey := cfg.apiKey
    timeout := if cfg.timeout = 0 then 30 * second else cfg.timeout
    retries := if cfg.retries = 0 then 3 else cfg.retries
    retryDelay := if cfg.retryDelay = 0 then 1 * second else cfg.retryDelay }

/-- With a non-empty API key, construction succeeds and yields exactly the
defaulted client. -/
theorem NewClient_ok (cfg : Config) (hk : cfg.apiKey ≠ "") :
    NewClient cfg = .ok (defaultedClient cfg) := by
  simp only [NewClient, if_neg hk]
  rfl

/-!
The claims.
-/

/-- C1: the transport executor classifies an HTTP outcome as retryable iff
its status equals 429 or is at least 500; and on a first-attempt response
with status 400, 401, 403, 404 or any 2xx it makes exactly one attempt and
terminates the loop at once, sleeping never, regardless of the remaining
retry budget. -/
theorem C1_retryable_classification :
    (∀ s : Nat, isRetryableError s = true ↔ (s = 429 ∨ 500 ≤ s)) ∧
    (∀ (env : DoEnv) (status : Nat) (readFail : Option String) (body : String),
      env.responses 0 = .http status readFail body →
      (status = 400 ∨ status = 401 ∨ status = 403 ∨ status = 404 ∨
        (200 ≤ status ∧ status < 300)) →
      (doRun env).attempts = 1 ∧ (doRun env).sleeps = []) := by
  constructor
  · intro s
    simp [isRetryableError]
  · intro env status readFail body h0 hset
    have hnr : isRetryableError status = false := by
      simp only [isRetryableError, Bool.or_eq_false_iff, beq_eq_false_iff_ne,
        ne_eq, decide_eq_false_iff_not]
      omega
    rw [doRun]
    cases readFail with
    | some e =>
      simp only [doAux, h0]
      rw [if_neg (by simp [hnr])]
      exact ⟨rfl, rfl⟩
    | none =>
      simp only [doAux, h0]
      by_cases hs : isSuccess status = true
      · rw [if_pos hs]
        split
        · cases hdec : env.decodeResult body <;> simp [hdec]
        · exact ⟨rfl, rfl⟩
      · rw [if_neg hs, if_neg (by simp [hnr])]
        exact ⟨rfl, rfl⟩

/-- Witness for C1: a 404 first response under a budget of five retries
still gives a single attempt and no sleep. -/
theorem C1_retryable_classification_witness :
    (doRun ⟨5, 7, fun _ => .http 404 none "nf", fun _ => none,
      true, fun _ => none⟩).attempts = 1 ∧
    (doRun ⟨5, 7, fun _ => .http 404 none "nf", fun _ => none,
      true, fun _ => none⟩).sleeps = [] :=
  C1_retryable_classification.2
    ⟨5, 7, fun _ => .http 404 none "nf", fun _ => none, true, fun _ => none⟩
    404 none "nf" rfl (by decide)

/-- C2: when every attempt fails at the transport level, the executor with
`retries = N` makes exactly `N + 1` send attempts and returns the last
transport error itself, which the spec taxonomy classifies as a
network-kind failure. -/
theorem C2_transport_exhaustion (env : DoEnv) (e : Nat → String)
    (hr : ∀ n, env.responses n = .transport (e n)) :
    (doRun env).attempts = env.retries + 1 ∧
    (doRun env).result = .error (.transportErr (e env.retries)) ∧
    specErrKind (.transportErr (e env.retries)) = .network := by
  have h := doAux_allTransport env e hr (env.retries + 1) 0 (.ok ())
    (by omega) (by omega)
  rw [doRun, h]
  exact ⟨rfl, rfl, rfl⟩

/-- Witness for C2 with three retries and a constant connection
failure. -/
theorem C2_transport_exhaustion_witness :
    (doRun ⟨3, 10, fun _ => .transport "refused", fun _ => none,
      false, fun _ => none⟩).attempts = 3 + 1 ∧
    (doRun ⟨3, 10, fun _ => .transport "refused", fun _ => none,
      false, fun _ => none⟩).result = .error (.transportErr "refused") ∧
    specErrKind (.transportErr "refused") = .network :=
  C2_transport_exhaustion
    ⟨3, 10, fun _ => .transport "refused", fun _ => none, false, fun _ => none⟩
    (fun _ => "refused") (fun _ => rfl)

/-- C3 counterexample: on the concrete non-2xx outcome status 400 with an
envelope-decodable body, the error `do` returns is the `LicenseChainError`
struct value carrying only message, status code, machine code and details,
and no kind tag whatsoever — refuting the claim that the returned error
carries a kind tag (validation, for 400) derived from the status. -/
theorem C3_kind_tag_counterexample :
    (doRun ⟨0, 1, fun _ => .http 400 none "b",
      fun _ => some ⟨"invalid", "", "c1", [], ""⟩, false,
      fun _ => none⟩).result = .error (.licenseChain "invalid" 400 "c1" []) ∧
    DoError.typeTag (.licenseChain "invalid" 400 "c1" []) = none := ⟨rfl, rfl⟩

/-- C3 (amended): for every non-2xx outcome the executor returns the
last-error value for that exchange, which deterministically carries the
raw status code (and the envelope fields when the body decodes), but
carries no kind tag: the spec's status-to-kind mapping is not implemented
by the executor. -/
theorem C3_status_carried_no_tag (env : DoEnv) (s : Nat) (body : String)
    (hresp : ∀ n, env.responses n = .http s none body)
    (hs : isSuccess s = false) :
    (doRun env).result = .error (mkHttpErr env.decodeErr s body) ∧
    (mkHttpErr env.decodeErr s body).carriedStatus = some s ∧
    (mkHttpErr env.decodeErr s body).typeTag = none := by
  refine ⟨doAux_constHttp env s body hresp hs (env.retries + 1) 0 (.ok ())
    (by omega) (by omega), ?_, ?_⟩
  · unfold mkHttpErr
    cases env.decodeErr body <;> rfl
  · unfold mkHttpErr DoError.typeTag
    cases env.decodeErr body <;> rfl

/-- Witness for the amended C3 at a concrete 418 response whose body does
not decode. -/
theorem C3_status_carried_no_tag_witness :
    (doRun ⟨1, 2, fun _ => .http 418 none "teapot", fun _ => none,
      false, fun _ => none⟩).result =
        .error (mkHttpErr (fun _ => none) 418 "teapot") ∧
    (mkHttpErr (fun _ => none) 418 "teapot").carriedStatus = some 418 ∧
    (mkHttpErr (fun _ => none) 418 "teapot").typeTag = none :=
  C3_status_carried_no_tag
    ⟨1, 2, fun _ => .http 418 none "teapot", fun _ => none, false, fun _ => none⟩
    418 "teapot" (fun _ => rfl) (by decide)

/-- C4: every delay the executor sleeps between attempt `i` and attempt
`i + 1` equals `retryDelay * 2 ^ i` with `i` zero-based — in any run
whatsoever — and in a run of persistent transport failures a sleep indeed
occurs at every index below the retry budget, with exactly that value. -/
theorem C4_exponential_backoff :
    (∀ (env : DoEnv) (i v : Nat),
      ((doRun env).sleeps).get? i = some v → v = env.retryDelay * 2 ^ i) ∧
    (∀ (env : DoEnv) (e : Nat → String),
      (∀ n, env.responses n = .transport (e n)) →
      ∀ i, i < env.retries →
        ((doRun env).sleeps).get? i = some (env.retryDelay * 2 ^ i)) := by
  constructor
  · intro env i v h
    obtain ⟨m, hm⟩ := doAux_sleeps_shape env (env.retries + 1) 0 (.ok ())
    rw [doRun, hm] at h
    simpa using backoffs_get env.retryDelay m 0 i v h
  · intro env e hr i hi
    have h := doAux_allTransport env e hr (env.retries + 1) 0 (.ok ())
      (by omega) (by omega)
    rw [doRun, h]
    simpa using backoffs_get_pos env.retryDelay (env.retries - 0) 0 i (by omega)

/-- Witness for C4: with base delay 10 and three retries against constant
transport failure, the three slept delays are 10 * 2^0, 10 * 2^1,
10 * 2^2. -/
theorem C4_exponential_backoff_witness :
    ((doRun ⟨3, 10, fun _ => .transport "x", fun _ => none,
      false, fun _ => none⟩).sleeps).get? 0 = some (10 * 2 ^ 0) ∧
    ((doRun ⟨3, 10, fun _ => .transport "x", fun _ => none,
      false, fun _ => none⟩).sleeps).get? 1 = some (10 * 2 ^ 1) ∧
    ((doRun ⟨3, 10, fun _ => .transport "x", fun _ => none,
      false, fun _ => none⟩).sleeps).get? 2 = some (10 * 2 ^ 2) :=
  ⟨C4_exponential_backoff.2
      ⟨3, 10, fun _ => .transport "x", fun _ => none, false, fun _ => none⟩
      (fun _ => "x") (fun _ => rfl) 0 (by decide),
   C4_exponential_backoff.2
      ⟨3, 10, fun _ => .transport "x", fun _ => none, false, fun _ => none⟩
      (fun _ => "x") (fun _ => rfl) 1 (by decide),
   C4_exponential_backoff.2
      ⟨3, 10, fun _ => .transport "x", fun _ => none, false, fun _ => none⟩
      (fun _ => "x") (fun _ => rfl) 2 (by decide)⟩

/-- C5: exhausting the budget on persistent 503 responses (with a
decodable envelope) returns the struct error carrying status 503, while
exhausting it on persistent transport failures returns the raw transport
error — two different values a caller can distinguish; the last observed
error is returned with its classification preserved, never a generic
timeout. -/
theorem C5_exhaustion_preserves_classification (env envT : DoEnv)
    (body : String) (envl : ErrorResponse) (e : Nat → String)
    (h503 : ∀ n, env.responses n = .http 503 none body)
    (hdec : env.decodeErr body = some envl)
    (htr : ∀ n, envT.responses n = .transport (e n)) :
    (doRun env).result =
      .error (.licenseChain envl.error 503 envl.code envl.details) ∧
    (doRun envT).result = .error (.transportErr (e envT.retries)) ∧
    DoError.licenseChain envl.error 503 envl.code envl.details ≠
      DoError.transportErr (e envT.retries) := by
  refine ⟨?_, ?_, by simp⟩
  · have h := doAux_constHttp env 503 body h503 (by decide)
      (env.retries + 1) 0 (.ok ()) (by omega) (by omega)
    rw [doRun]
    rw [h]
    simp [mkHttpErr, hdec]
  · have h := doAux_allTransport envT e htr (envT.retries + 1) 0 (.ok ())
      (by omega) (by omega)
    rw [doRun, h]

/-- Witness for C5 at two concrete runs with two retries each. -/
theorem C5_exhaustion_preserves_classification_witness :
    (doRun ⟨2, 3, fun _ => .http 503 none "b",
      fun _ => some ⟨"svc down", "", "cX", [], ""⟩, false,
      fun _ => none⟩).result =
        .error (.licenseChain "svc down" 503 "cX" []) ∧
    (doRun ⟨2, 3, fun _ => .transport "reset", fun _ => none,
      false, fun _ => none⟩).result = .error (.transportErr "reset") ∧
    DoError.licenseChain "svc down" 503 "cX" [] ≠ DoError.transportErr "reset" :=
  C5_exhaustion_preserves_classification
    ⟨2, 3, fun _ => .http 503 none "b",
      fun _ => some ⟨"svc down", "", "cX", [], ""⟩, false, fun _ => none⟩
    ⟨2, 3, fun _ => .transport "reset", fun _ => none, false, fun _ => none⟩
    "b" ⟨"svc down", "", "cX", [], ""⟩ (fun _ => "reset")
    (fun _ => rfl) rfl (fun _ => rfl)

/-- C6: a non-2xx outcome whose body fails to decode as the error envelope
is surfaced as the plain formatted error — classified `unknown` by the
spec taxonomy — carrying both the raw status code and the raw body text;
it is never dropped. -/
theorem C6_undecodable_error_body (env : DoEnv) (s : Nat) (body : String)
    (hresp : ∀ n, env.responses n = .http s none body)
    (hs : isSuccess s = false) (hdec : env.decodeErr body = none) :
    (doRun env).result = .error (.httpError s body) ∧
    specErrKind (.httpError s body) = .unknown ∧
    DoError.carriedStatus (.httpError s body) = some s ∧
    DoError.carriedBody (.httpError s body) = some body := by
  have h := doAux_constHttp env s body hresp hs (env.retries + 1) 0 (.ok ())
    (by omega) (by omega)
  rw [doRun, h]
  simp [mkHttpErr, hdec]
  exact ⟨rfl, rfl, rfl⟩

/-- Witness for C6 at a concrete 500 with an undecodable body. -/
theorem C6_undecodable_error_body_witness :
    (doRun ⟨2, 5, fun _ => .http 500 none "oops", fun _ => none,
      false, fun _ => none⟩).result = .error (.httpError 500 "oops") ∧
    specErrKind (.httpError 500 "oops") = .unknown ∧
    DoError.carriedStatus (.httpError 500 "oops") = some 500 ∧
    DoError.carriedBody (.httpError 500 "oops") = some "oops" :=
  C6_undecodable_error_body
    ⟨2, 5, fun _ => .http 500 none "oops", fun _ => none, false, fun _ => none⟩
    500 "oops" (fun _ => rfl) (by decide) rfl

/-- C7: on a 2xx first response with a requested result and a non-empty
body, the body is decoded; a decode failure is returned to the caller at
once as that unmarshal error — one attempt, no sleep, no retry budget
consumed, nothing swallowed — and a decode success returns cleanly. -/
theorem C7_success_decode (env : DoEnv) (status : Nat) (body : String)
    (hresp : env.responses 0 = .http status none body)
    (hs : isSuccess status = true) (hrr : env.resultRequested = true)
    (hbody : 0 < body.length) :
    (∀ e, env.decodeResult body = some e →
      (doRun env).attempts = 1 ∧ (doRun env).sleeps = [] ∧
      (doRun env).result = .error (.unmarshalErr e)) ∧
    (env.decodeResult body = none →
      (doRun env).attempts = 1 ∧ (doRun env).sleeps = [] ∧
      (doRun env).result = .ok ()) := by
  constructor
  · intro e hdec
    rw [doRun]
    simp only [doAux, hresp]
    rw [if_pos hs, if_pos ⟨hrr, hbody⟩, hdec]
    exact ⟨rfl, rfl, rfl⟩
  · intro hdec
    rw [doRun]
    simp only [doAux, hresp]
    rw [if_pos hs, if_pos ⟨hrr, hbody⟩, hdec]
    exact ⟨rfl, rfl, rfl⟩

/-- Witness for C7: a 200 response whose body fails to decode is returned
as that error after a single attempt, with four retries of unused
budget. -/
theorem C7_success_decode_witness :
    (doRun ⟨4, 9, fun _ => .http 200 none "zz", fun _ => none,
      true, fun _ => some "bad json"⟩).attempts = 1 ∧
    (doRun ⟨4, 9, fun _ => .http 200 none "zz", fun _ => none,
      true, fun _ => some "bad json"⟩).sleeps = [] ∧
    (doRun ⟨4, 9, fun _ => .http 200 none "zz", fun _ => none,
      true, fun _ => some "bad json"⟩).result =
        .error (.unmarshalErr "bad json") :=
  (C7_success_decode
    ⟨4, 9, fun _ => .http 200 none "zz", fun _ => none, true,
      fun _ => some "bad json"⟩
    200 "zz" rfl (by decide) rfl (by decide)).1 "bad json" rfl

/-- C8: client construction fails exactly when the API key is empty (a
local check before any network activity), and on success every zero-valued
configuration field receives its default — base URL
https://api.licensechain.app, timeout 30s, three retries, one-second base
delay; the constructed state is a pure function of the configuration and
is never touched again (the embedding is a value). -/
theorem C8_construction (cfg : Config) :
    ((∃ c, NewClient cfg = .ok c) ↔ cfg.apiKey ≠ "") ∧
    (cfg.apiKey ≠ "" → cfg.baseURL = "" → cfg.timeout = 0 → cfg.retries = 0 →
      cfg.retryDelay = 0 →
      NewClient cfg = .ok
        { baseURL := "https://api.licensechain.app", apiKey := cfg.apiKey,
          timeout := 30 * second, retries := 3, retryDelay := 1 * second }) := by
  constructor
  · constructor
    · rintro ⟨c, hc⟩ hk
      simp [NewClient, hk] at hc
    · intro hk
      exact ⟨defaultedClient cfg, NewClient_ok cfg hk⟩
  · intro hk h1 h2 h3 h4
    rw [NewClient_ok cfg hk]
    simp [defaultedClient, h1, h2, h3, h4, (by decide :
      trimSuffix "https://api.licensechain.app" "/" = "https://api.licensechain.app")]

/-- Witness for C8 on the all-defaults configuration. -/
theorem C8_construction_witness :
    NewClient ⟨"k", "", 0, 0, 0⟩ = .ok
      { baseURL := "https://api.licensechain.app", apiKey := "k",
        timeout := 30 * second, retries := 3, retryDelay := 1 * second } :=
  (C8_construction ⟨"k", "", 0, 0, 0⟩).2 (by decide) rfl rfl rfl rfl

/-- C9: verifying the signature produced by signing a payload with a
secret always succeeds, and verification fails for every candidate
signature whose byte sequence differs from the signed one anywhere. -/
theorem C9_webhook_signature_roundtrip :
    (∀ payload secret : String,
      VerifyWebhookSignature payload (CreateWebhookSignature payload secret)
        secret = true) ∧
    (∀ payload s secret : String,
      utf8Bytes s ≠ utf8Bytes (CreateWebhookSignature payload secret) →
      VerifyWebhookSignature payload s secret = false) := by
  constructor
  · intro p sec
    simp [VerifyWebhookSignature, hmacEqual]
  · intro p s sec h
    simpa [VerifyWebhookSignature, hmacEqual] using h

set_option maxRecDepth 40000 in
/-- Witness for C9: the concrete signature of "abc" under key "key"
verifies, and the one-byte string "x" (different from the 64-byte hex
signature) is rejected; both sides computed by evaluation. -/
theorem C9_webhook_signature_roundtrip_witness :
    VerifyWebhookSignature "abc" (CreateWebhookSignature "abc" "key") "key"
      = true ∧
    VerifyWebhookSignature "abc" "x" "key" = false :=
  ⟨C9_webhook_signature_roundtrip.1 "abc" "key",
   C9_webhook_signature_roundtrip.2 "abc" "x" "key" (by decide)⟩

/-- C10: a configured `Retries` of exactly 0 is replaced by the default 3
(as are `Timeout` 0 by 30s and `RetryDelay` 0 by 1s), so such a client
makes up to 4 attempts (exactly 4 under persistent transport failure); no
constructed client can hold zero retries; and a negative `Retries` passes
through unchanged. -/
theorem C10_zero_retries_defaulted :
    (∀ (cfg : Config) (c : ClientState), NewClient cfg = .ok c →
      c.retries ≠ 0) ∧
    (∀ cfg : Config, cfg.apiKey ≠ "" → cfg.retries = 0 →
      ∃ c, NewClient cfg = .ok c ∧ c.retries = 3) ∧
    (∀ cfg : Config, cfg.apiKey ≠ "" → cfg.retries < 0 →
      ∃ c, NewClient cfg = .ok c ∧ c.retries = cfg.retries) ∧
    (∀ cfg : Config, cfg.apiKey ≠ "" → cfg.timeout = 0 →
      ∃ c, NewClient cfg = .ok c ∧ c.timeout = 30 * second) ∧
    (∀ cfg : Config, cfg.apiKey ≠ "" → cfg.retryDelay = 0 →
      ∃ c, NewClient cfg = .ok c ∧ c.retryDelay = 1 * second) ∧
    (∀ (env : DoEnv) (e : Nat → String), env.retries = 3 →
      (∀ n, env.responses n = .transport (e n)) → (doRun env).attempts = 4) ∧
    (∀ env : DoEnv, env.retries = 3 → (doRun env).attempts ≤ 4) := by
  refine ⟨?_, ?_, ?_, ?_, ?_, ?_, ?_⟩
  · intro cfg c h
    by_cases hk : cfg.apiKey = ""
    · simp [NewClient, hk] at h
    · rw [NewClient_ok cfg hk] at h
      have hc : c = defaultedClient cfg := by
        injection h with h
        exact h.symm
      subst hc
      show (if cfg.retries = 0 then 3 else cfg.retries) ≠ 0
      split <;> omega
  · intro cfg hk h0
    refine ⟨defaultedClient cfg, NewClient_ok cfg hk, ?_⟩
    simp [defaultedClient, h0]
  · intro cfg hk h0
    refine ⟨defaultedClient cfg, NewClient_ok cfg hk, ?_⟩
    show (if cfg.retries = 0 then 3 else cfg.retries) = cfg.retries
    split <;> omega
  · intro cfg hk h0
    refine ⟨defaultedClient cfg, NewClient_ok cfg hk, ?_⟩
    simp [defaultedClient, h0]
  · intro cfg hk h0
    refine ⟨defaultedClient cfg, NewClient_ok cfg hk, ?_⟩
    simp [defaultedClient, h0]
  · intro env e h3 hr
    have h := doAux_allTransport env e hr (env.retries + 1) 0 (.ok ())
      (by omega) (by omega)
    rw [doRun, h]
    show env.retries + 1 = 4
    omega
  · intro env h3
    have h := doAux_attempts_le env (env.retries + 1) 0 (.ok ())
    rw [doRun]
    omega

/-- Witness for C10: a zero-retries configuration yields a client with
three retries, a negative value passes through, and the retries-3 client
exhausts at exactly four attempts. -/
theorem C10_zero_retries_defaulted_witness :
    (∃ c, NewClient ⟨"k", "u", 5, 0, 7⟩ = .ok c ∧ c.retries = 3) ∧
    (∃ c, NewClient ⟨"k", "u", 5, -2, 7⟩ = .ok c ∧ c.retries = -2) ∧
    (doRun ⟨3, 10, fun _ => .transport "down", fun _ => none,
      false, fun _ => none⟩).attempts = 4 :=
  ⟨C10_zero_retries_defaulted.2.1 ⟨"k", "u", 5, 0, 7⟩ (by decide) rfl,
   C10_zero_retries_defaulted.2.2.1 ⟨"k", "u", 5, -2, 7⟩ (by decide) (by decide),
   C10_zero_retries_defaulted.2.2.2.2.2.1
     ⟨3, 10, fun _ => .transport "down", fun _ => none, false, fun _ => none⟩
     (fun _ => "down") rfl (fun _ => rfl)⟩

end LicenseChain
